import Mathlib

/-!
Verification development for the T.I.Y.A. desktop assistant (PyQt GUI glue
around a generative-text API, a Firestore-backed credential store, and
speech input/output).  The definitions below are a shallow embedding of the
Python sources under `GUI/`:

* `main_assistant.py` — chat window: `send_message`, `generate_response`,
  `add_user_message` / `add_tiya_message`, `closeEvent`, `WakeWordListener`;
* `api_setup.py` — API-key setup window: `APIValidationThread.run`,
  `validate_and_save_api`, `handle_validation_result`, `load_existing_config`;
* `main_app.py` — application flow: `handle_login`, `check_user_api_key`;
* `firebase_manager.py` — document store wrapper: `hash_username`,
  `store_user_api_key`, `get_user_api_key`, preferences / chat / delete ops;
* `login.py` — `process_login` (overridden by `main_app.handle_login`).

External blocking calls (Gemini completion, Firestore round trips, speech
recognition) are modelled as explicit outcome parameters (`Except`/`Option`),
matching the code's treatment of them as single fallible calls.
-/

namespace Tiya

/-! ## Python string primitives used by the sources -/

/-- Python `str.lower` restricted to the ASCII range, as applied by the code
to usernames (`username.lower()` in `login.py` and `firebase_manager.py`). -/
def py_lower (s : String) : String := ⟨s.data.map Char.toLower⟩

/-- Python `str.upper` restricted to the ASCII range (`message.upper()` in
`handle_validation_result`). -/
def py_upper (s : String) : String := ⟨s.data.map Char.toUpper⟩

/-- Whitespace characters stripped by Python `str.strip()`. -/
def isPySpace (c : Char) : Bool :=
  c = ' ' || c = '\t' || c = '\n' || c = '\r' || c.toNat = 11 || c.toNat = 12

/-- Python `str.strip()`: remove leading and trailing whitespace. -/
def py_strip (s : String) : String :=
  ⟨((s.data.dropWhile isPySpace).reverse.dropWhile isPySpace).reverse⟩

/-- Substring occurrence on character lists (Python `pat in s`). -/
def listHasSub (pat : List Char) : List Char → Bool
  | [] => pat.isEmpty
  | c :: rest => pat.isPrefixOf (c :: rest) || listHasSub pat rest

/-- Python `pat in s` for strings. -/
def strHasSub (s pat : String) : Bool := listHasSub pat.data s.data

/-! ## SHA-256 (the `hashlib.sha256(...).hexdigest()` call in
`firebase_manager.hash_username`) -/

/-- Truncate to a 32-bit machine word. -/
def w32 (n : Nat) : Nat := n % 4294967296

/-- 32-bit right rotation. -/
def rotr32 (x n : Nat) : Nat := w32 ((x >>> n) ||| (x <<< (32 - n)))

/-- 32-bit complement. -/
def notw (x : Nat) : Nat := 4294967295 ^^^ x

/-- The big Σ0 function of the compression loop. -/
def bigSigma0 (x : Nat) : Nat :=
  Nat.xor (rotr32 x 2) (Nat.xor (rotr32 x 13) (rotr32 x 22))

/-- The big Σ1 function of the compression loop. -/
def bigSigma1 (x : Nat) : Nat :=
  Nat.xor (rotr32 x 6) (Nat.xor (rotr32 x 11) (rotr32 x 25))

/-- The small σ0 function of the message schedule. -/
def smallSigma0 (x : Nat) : Nat :=
  Nat.xor (rotr32 x 7) (Nat.xor (rotr32 x 18) (x >>> 3))

/-- The small σ1 function of the message schedule. -/
def smallSigma1 (x : Nat) : Nat :=
  Nat.xor (rotr32 x 17) (Nat.xor (rotr32 x 19) (x >>> 10))

def chF (x y z : Nat) : Nat := Nat.xor (x &&& y) (notw x &&& z)

def majF (x y z : Nat) : Nat :=
  Nat.xor (x &&& y) (Nat.xor (x &&& z) (y &&& z))

/-- SHA-256 round constants (FIPS 180-4, in decimal). -/
def sha256K : List Nat :=
  [1116352408, 1899447441, 3049323471, 3921009573,
   961987163, 1508970993, 2453635748, 2870763221,
   3624381080, 310598401, 607225278, 1426881987,
   1925078388, 2162078206, 2614888103, 3248222580,
   3835390401, 4022224774, 264347078, 604807628,
   770255983, 1249150122, 1555081692, 1996064986,
   2554220882, 2821834349, 2952996808, 3210313671,
   3336571891, 3584528711, 113926993, 338241895,
   666307205, 773529912, 1294757372, 1396182291,
   1695183700, 1986661051, 2177026350, 2456956037,
   2730485921, 2820302411, 3259730800, 3345764771,
   3516065817, 3600352804, 4094571909, 275423344,
   430227734, 506948616, 659060556, 883997877,
   958139571, 1322822218, 1537002063, 1747873779,
   1955562222, 2024104815, 2227730452, 2361852424,
   2428436474, 2756734187, 3204031479, 3329325298]

/-- Big-endian 8-byte encoding of the bit length. -/
def be64 (n : Nat) : List Nat :=
  [(n >>> 56) % 256, (n >>> 48) % 256, (n >>> 40) % 256, (n >>> 32) % 256,
   (n >>> 24) % 256, (n >>> 16) % 256, (n >>> 8) % 256, n % 256]

/-- Big-endian 4-byte encoding of a 32-bit word. -/
def be32 (n : Nat) : List Nat :=
  [(n >>> 24) % 256, (n >>> 16) % 256, (n >>> 8) % 256, n % 256]

/-- SHA-256 padding: append `0x80`, zeros to 56 mod 64, then the 64-bit
big-endian bit length. -/
def padMessage (msg : List Nat) : List Nat :=
  let padZeros := (119 - msg.length % 64) % 64
  msg ++ 0x80 :: List.replicate padZeros 0 ++ be64 (8 * msg.length)

/-- Group bytes into big-endian 32-bit words. -/
def bytesToWords : List Nat → List Nat
  | a :: b :: c :: d :: rest =>
      (a * 16777216 + b * 65536 + c * 256 + d) :: bytesToWords rest
  | _ => []

/-- Split the word stream into 16-word blocks. -/
def chunk16 : List Nat → List (List Nat)
  | w0 :: w1 :: w2 :: w3 :: w4 :: w5 :: w6 :: w7 ::
    w8 :: w9 :: w10 :: w11 :: w12 :: w13 :: w14 :: w15 :: rest =>
      [w0, w1, w2, w3, w4, w5, w6, w7,
       w8, w9, w10, w11, w12, w13, w14, w15] :: chunk16 rest
  | _ => []

/-- Extend a 16-word block by `n` schedule words. -/
def scheduleExtend (ws : List Nat) : Nat → List Nat
  | 0 => ws
  | Nat.succ n =>
      let prev := scheduleExtend ws n
      let L := prev.length
      prev ++ [w32 (smallSigma1 (prev.getD (L - 2) 0) + prev.getD (L - 7) 0 +
                    smallSigma0 (prev.getD (L - 15) 0) + prev.getD (L - 16) 0)]

/-- The 64-word message schedule of a block. -/
def sha256Schedule (block : List Nat) : List Nat := scheduleExtend block 48

/-- The eight SHA-256 working variables. -/
structure Hash8 where
  a : Nat
  b : Nat
  c : Nat
  d : Nat
  e : Nat
  f : Nat
  g : Nat
  h : Nat
deriving Repr, DecidableEq

/-- Initial SHA-256 hash value (FIPS 180-4, in decimal). -/
def sha256Init : Hash8 :=
  ⟨1779033703, 3144134277, 1013904242, 2773480762,
   1359893119, 2600822924, 528734635, 1541459225⟩

/-- One compression round, consuming a (round constant, schedule word) pair. -/
def compressRound (st : Hash8) (kw : Nat × Nat) : Hash8 :=
  let t1 := w32 (st.h + bigSigma1 st.e + chF st.e st.f st.g + kw.1 + kw.2)
  let t2 := w32 (bigSigma0 st.a + majF st.a st.b st.c)
  ⟨w32 (t1 + t2), st.a, st.b, st.c, w32 (st.d + t1), st.e, st.f, st.g⟩

/-- Process one 16-word block. -/
def processBlock (st : Hash8) (block : List Nat) : Hash8 :=
  let fin := (sha256K.zip (sha256Schedule block)).foldl compressRound st
  ⟨w32 (st.a + fin.a), w32 (st.b + fin.b), w32 (st.c + fin.c), w32 (st.d + fin.d),
   w32 (st.e + fin.e), w32 (st.f + fin.f), w32 (st.g + fin.g), w32 (st.h + fin.h)⟩

/-- SHA-256 digest (32 bytes) of a byte string. -/
def sha256Bytes (msg : List Nat) : List Nat :=
  let st := (chunk16 (bytesToWords (padMessage msg))).foldl processBlock sha256Init
  be32 st.a ++ be32 st.b ++ be32 st.c ++ be32 st.d ++
  be32 st.e ++ be32 st.f ++ be32 st.g ++ be32 st.h

/-- UTF-8 encoding of one character (Python `str.encode()`). -/
def utf8CharBytes (c : Char) : List Nat :=
  let n := c.toNat
  if n < 0x80 then [n]
  else if n < 0x800 then
    [0xC0 ||| (n >>> 6), 0x80 ||| (n &&& 0x3F)]
  else if n < 0x10000 then
    [0xE0 ||| (n >>> 12), 0x80 ||| ((n >>> 6) &&& 0x3F), 0x80 ||| (n &&& 0x3F)]
  else
    [0xF0 ||| (n >>> 18), 0x80 ||| ((n >>> 12) &&& 0x3F),
     0x80 ||| ((n >>> 6) &&& 0x3F), 0x80 ||| (n &&& 0x3F)]

/-- UTF-8 encoding of a string. -/
def utf8Encode (s : String) : List Nat := s.data.flatMap utf8CharBytes

/-- Lowercase hexadecimal digit. -/
def hexDigit (n : Nat) : Char :=
  if n < 10 then Char.ofNat (48 + n) else Char.ofNat (87 + n)

/-- `hashlib.sha256(s.encode()).hexdigest()`. -/
def sha256_hexdigest (s : String) : String :=
  ⟨(sha256Bytes (utf8Encode s)).flatMap (fun b => [hexDigit (b / 16), hexDigit (b % 16)])⟩

/-- `FirebaseManager.hash_username`:
`hashlib.sha256(username.lower().encode()).hexdigest()`. -/
def hash_username (username : String) : String :=
  sha256_hexdigest (py_lower username)

/-! ## Chat window (`main_assistant.py`, `EnhancedTIYAAssistant`) -/

/-- Message author: user bubble (`add_user_message`) or assistant bubble
(`add_tiya_message`). -/
inductive Author where
  | user
  | assistant
deriving Repr, DecidableEq

/-- One chat bubble appended to `chat_layout` (timestamp label omitted). -/
structure Message where
  author : Author
  text : String
deriving Repr, DecidableEq

/-- Outcome of asking the window to start a background task.  The code only
ever starts a thread; `busy` is the rejection outcome named by the spec,
included so its absence can be stated. -/
inductive SubmitOutcome where
  | started
  | busy
deriving Repr, DecidableEq

/-- The state of `EnhancedTIYAAssistant` relevant to task submission,
delivery and shutdown. -/
structure AssistantState where
  /-- bubbles added to `chat_layout`, in append order -/
  transcript : List Message
  /-- `response_thread` workers spawned by `generate_response` whose
  `QTimer.singleShot` delivery has not yet run -/
  pendingResponses : Nat
  /-- `WakeWordListener.running` -/
  wakeRunning : Bool
  /-- webcam capture device open (`EnhancedWebcamFeed.cap`) -/
  webcamOpen : Bool
  /-- the window has received `closeEvent` -/
  windowClosed : Bool
  hudStatus : String
  statusLabel : String
deriving Repr, DecidableEq

/-- The greeting `add_tiya_message` issued by `create_right_panel`. -/
def greetingText (audioAvailable : Bool) : String :=
  "Quantum communication channel established\nAll systems online and ready\nVoice recognition: "
    ++ (if audioAvailable then "ACTIVE" else "UNAVAILABLE")

/-- Window state after `__init__` ran (one greeting bubble, nothing pending,
wake-word listener created but not started). -/
def assistant_init (audioAvailable : Bool) : AssistantState :=
  { transcript := [⟨Author.assistant, greetingText audioAvailable⟩]
    pendingResponses := 0
    wakeRunning := false
    webcamOpen := true
    windowClosed := false
    hudStatus := "STANDBY"
    statusLabel := "QUANTUM CORE: ONLINE" }

/-- `EnhancedTIYAAssistant.generate_response`: sets the HUD to PROCESSING and
unconditionally starts a `response_thread` worker — there is no pending-task
check and no rejection path. -/
def generate_response (s : AssistantState) (message : String) :
    AssistantState × SubmitOutcome :=
  ({ s with hudStatus := "PROCESSING",
            statusLabel := "PROCESSING QUANTUM RESPONSE...",
            pendingResponses := s.pendingResponses + 1 }, SubmitOutcome.started)

/-- The three canned replies used when the Gemini client is unavailable. -/
def mockResponses : List String :=
  ["Quantum analysis complete. Your query aligns with probability matrix 7-Gamma. Optimal solution path calculated.",
   "Temporal calculations initiated. Calibrating response to your precise timeline. Quantum entanglement stable.",
   "Neural networks synchronized. Processing complete. All quantum states are aligned for this outcome."]

/-- Body of the `response_thread` worker: the single message it posts back via
`QTimer.singleShot(0, ... add_tiya_message ...)`.  `apiCall` is the outcome of
`model.generate_content(prompt)` (`Except.error` = any raised exception),
`mockIdx` resolves `random.choice`.  The whole body is wrapped in
`try/except Exception`, so every failure becomes the `System error:` message. -/
def response_thread (geminiAvailable : Bool) (apiKey : String)
    (apiCall : Except String String) (mockIdx : Nat) : Message :=
  if geminiAvailable && apiKey != "" then
    match apiCall with
    | Except.ok t => ⟨Author.assistant, t⟩
    | Except.error e =>
        ⟨Author.assistant, "System error: " ++ e ++ "\n\n// T-I-Y-A Quantum Core"⟩
  else
    ⟨Author.assistant,
      (mockResponses.getD (mockIdx % 3) "") ++ "\n\n// T-I-Y-A Quantum Core"⟩

/-- Delivery of a worker's message on the interactive thread:
`add_tiya_message` appends the bubble and (on the non-speaking path)
`reset_to_monitoring` returns the HUD to STANDBY.  Nothing here consults
`windowClosed`: the code has no discard mechanism for a closed window. -/
def deliver_response (s : AssistantState) (m : Message) : AssistantState :=
  { s with transcript := s.transcript ++ [m],
           pendingResponses := s.pendingResponses - 1,
           hudStatus := "STANDBY" }

/-- `EnhancedTIYAAssistant.send_message`: strip the input field; an empty
result is dropped, otherwise append the user bubble, clear the field and call
`generate_response`.  Returns the number of completion workers started. -/
def send_message (s : AssistantState) (inputField : String) :
    AssistantState × Nat :=
  let message := py_strip inputField
  if message = "" then (s, 0)
  else
    let s1 := { s with transcript := s.transcript ++ [⟨Author.user, message⟩] }
    ((generate_response s1 message).1, 1)

/-- `EnhancedTIYAAssistant.process_voice_input`: append the recognized
utterance as a `[VOICE]:` user bubble and start one completion worker. -/
def process_voice_input (s : AssistantState) (text : String) :
    AssistantState × Nat :=
  let s1 := { s with transcript := s.transcript ++ [⟨Author.user, "[VOICE]: " ++ text⟩] }
  ((generate_response s1 text).1, 1)

/-- One submit-then-resolve cycle of the sequential discipline in §8: submit
the typed input, and if a worker started, deliver its message before the next
submission.  A step carries the typed input, the external call outcome and
the `random.choice` index. -/
def submit_and_resolve (geminiAvailable : Bool) (apiKey : String)
    (s : AssistantState) (step : String × Except String String × Nat) :
    AssistantState :=
  let s1 := (send_message s step.1).1
  if py_strip step.1 = "" then s1
  else deliver_response s1 (response_thread geminiAvailable apiKey step.2.1 step.2.2)

/-- Run a list of sequential submit/resolve cycles. -/
def run_sequential (geminiAvailable : Bool) (apiKey : String) :
    AssistantState → List (String × Except String String × Nat) → AssistantState
  | s, [] => s
  | s, step :: rest =>
      run_sequential geminiAvailable apiKey
        (submit_and_resolve geminiAvailable apiKey s step) rest

/-- The pair of bubbles one non-empty submission contributes. -/
def exchange_pair (geminiAvailable : Bool) (apiKey : String)
    (step : String × Except String String × Nat) : List Message :=
  [⟨Author.user, py_strip step.1⟩,
   response_thread geminiAvailable apiKey step.2.1 step.2.2]

/-- `WakeWordListener.stop`: clears `running` (the `while self.running` loop
then exits) and joins the thread. -/
def wake_listener_stop (s : AssistantState) : AssistantState :=
  { s with wakeRunning := false }

/-- The recognition loop of `WakeWordListener.run`: each iteration runs only
while `running` holds; a recognized utterance containing "tiya" emits one
`wakeWordDetected` signal, recognition failures are swallowed.  Returns the
emitted signals. -/
def wake_loop (running : Bool) : List (Except String String) → List Unit
  | [] => []
  | u :: rest =>
      if running then
        (match u with
         | Except.ok text => if strHasSub (py_lower text) "tiya" then [()] else []
         | Except.error _ => []) ++ wake_loop running rest
      else []

/-- `EnhancedTIYAAssistant.closeEvent`: stop the wake-word listener and
release the webcam.  Nothing else: no pending-worker bookkeeping. -/
def assistant_closeEvent (s : AssistantState) : AssistantState :=
  { wake_listener_stop s with webcamOpen := false, windowClosed := true }

/-! ## Login flow (`main_app.py` `TIYAApplication.handle_login`, which
overrides `login.py` `TIYALogin.process_login`) -/

/-- The plaintext allow-list embedded in `handle_login` / `process_login`. -/
def valid_users : List (String × String) :=
  [("daksh lohchab", "886"), ("operator", "quantum"),
   ("admin", "singularity"), ("tiya", "protocol")]

/-- Python `username in valid_users` plus `valid_users[username]`. -/
def lookup_valid_user (username : String) : Option String :=
  (valid_users.find? (fun p => p.1 == username)).map (fun p => p.2)

/-- Application-level flow stages reached from the login handler. -/
inductive LoginOutcome where
  | proceedToCredentialCheck
  | denied
deriving Repr, DecidableEq

/-- State owned by `TIYAApplication` that the login handler touches. -/
structure AppState where
  current_user : Option String
  api_key : Option String
  loginStatusText : String
deriving Repr, DecidableEq

/-- `TIYAApplication.__init__`. -/
def app_init : AppState :=
  { current_user := none, api_key := none, loginStatusText := "" }

/-- `TIYAApplication.handle_login`: exact-string comparison of the submitted
pair against the allow-list; success records the user and schedules
`check_user_api_key`, failure shows the denial text and leaves the session
untouched. -/
def handle_login (s : AppState) (username password : String) :
    AppState × LoginOutcome :=
  match lookup_valid_user username with
  | some pw =>
      if password = pw then
        ({ s with current_user := some username,
                  loginStatusText := "● CONNECTION ESTABLISHED. CHECKING NEURAL KEYS..." },
         LoginOutcome.proceedToCredentialCheck)
      else
        ({ s with loginStatusText := "● AUTHENTICATION FAILURE. ANOMALY DETECTED." },
         LoginOutcome.denied)
  | none =>
      ({ s with loginStatusText := "● AUTHENTICATION FAILURE. ANOMALY DETECTED." },
       LoginOutcome.denied)

/-- `TIYALogin.handle_login` lowercases the username field before handing the
pair to the (overridden) `process_login`. -/
def submit_login_form (s : AppState) (usernameField passwordField : String) :
    AppState × LoginOutcome :=
  handle_login s (py_lower usernameField) passwordField

/-! ## Document store (`firebase_manager.py`, `FirebaseManager`)

The Firestore `users` collection is modelled as an association list from
document id (the `hash_username` hex digest) to the document's fields; the
`chats` subcollections as a list of (user hash, chat id, messages) entries.
Each fallible Firestore round trip takes an explicit `Option String` error
(`some e` = the client raised `e`), matching the `try/except` blocks. -/

/-- Fields of a `users/<hash>` document that the code reads or writes
(timestamps omitted). -/
structure UserDoc where
  api_key : Option String
  preferences : Option (List (String × String))
deriving Repr, DecidableEq

/-- Firestore document lookup by id. -/
def lookupDoc : List (String × UserDoc) → String → Option UserDoc
  | [], _ => none
  | p :: rest, docId => if p.1 == docId then some p.2 else lookupDoc rest docId

/-- `set(..., merge=True)` of the `store_user_api_key` payload: update the
`api_key` field of the addressed document, creating it if absent. -/
def upsertApiKey : List (String × UserDoc) → String → String → List (String × UserDoc)
  | [], docId, key => [(docId, { api_key := some key, preferences := none })]
  | p :: rest, docId, key =>
      if p.1 == docId then (p.1, { p.2 with api_key := some key }) :: rest
      else p :: upsertApiKey rest docId key

/-- `update({'preferences': ...})` on an existing document. -/
def setPrefs : List (String × UserDoc) → String → List (String × String) →
    List (String × UserDoc)
  | [], _, _ => []
  | p :: rest, docId, prefs =>
      if p.1 == docId then (p.1, { p.2 with preferences := some prefs }) :: rest
      else p :: setPrefs rest docId prefs

/-- Document deletion. -/
def removeDoc (docs : List (String × UserDoc)) (docId : String) :
    List (String × UserDoc) :=
  docs.filter (fun p => p.1 != docId)

/-- State of the `FirebaseManager` singleton plus the remote store. -/
structure FirebaseSt where
  /-- `self.initialized` -/
  connected : Bool
  docs : List (String × UserDoc)
  chats : List (String × String × List String)
deriving Repr, DecidableEq

/-- `FirebaseManager.store_user_api_key`.  Returns the new store state and
the `(ok, message)` pair. -/
def store_user_api_key (st : FirebaseSt) (callErr : Option String)
    (username api_key : String) : FirebaseSt × Bool × String :=
  if st.connected = false then (st, false, "Firebase not initialized")
  else
    match callErr with
    | some e => (st, false, "Error storing API key: " ++ e)
    | none =>
        ({ st with docs := upsertApiKey st.docs (hash_username username) api_key },
         true, "API key stored successfully")

/-- `FirebaseManager.get_user_api_key`.  Returns `(key_or_none, message)`;
every exception from the round trip is caught and reported in the message. -/
def get_user_api_key (st : FirebaseSt) (callErr : Option String)
    (username : String) : Option String × String :=
  if st.connected = false then (none, "Firebase not initialized")
  else
    match callErr with
    | some e => (none, "Error retrieving API key: " ++ e)
    | none =>
        match lookupDoc st.docs (hash_username username) with
        | some doc => (doc.api_key, "API key retrieved successfully")
        | none => (none, "User not found")

/-- `FirebaseManager.store_user_preferences`: `update` raises on a missing
document, which the `except` turns into `False`. -/
def store_user_preferences (st : FirebaseSt) (callErr : Option String)
    (username : String) (prefs : List (String × String)) : FirebaseSt × Bool :=
  if st.connected = false then (st, false)
  else
    match callErr with
    | some _ => (st, false)
    | none =>
        match lookupDoc st.docs (hash_username username) with
        | none => (st, false)
        | some _ =>
            ({ st with docs := setPrefs st.docs (hash_username username) prefs }, true)

/-- `FirebaseManager.get_user_preferences`. -/
def get_user_preferences (st : FirebaseSt) (callErr : Option String)
    (username : String) : List (String × String) :=
  if st.connected = false then []
  else
    match callErr with
    | some _ => []
    | none =>
        match lookupDoc st.docs (hash_username username) with
        | some doc => doc.preferences.getD []
        | none => []

/-- `FirebaseManager.store_chat_history`: writes one chat document under the
user hash. -/
def store_chat_history (st : FirebaseSt) (callErr : Option String)
    (username chatId : String) (messages : List String) : FirebaseSt × Bool :=
  if st.connected = false then (st, false)
  else
    match callErr with
    | some _ => (st, false)
    | none =>
        ({ st with chats := st.chats ++ [(hash_username username, chatId, messages)] },
         true)

/-- `FirebaseManager.delete_user_data`: delete the chat subcollection, then
the user document. -/
def delete_user_data (st : FirebaseSt) (callErr : Option String)
    (username : String) : FirebaseSt × Bool :=
  if st.connected = false then (st, false)
  else
    match callErr with
    | some _ => (st, false)
    | none =>
        ({ st with docs := removeDoc st.docs (hash_username username),
                   chats := st.chats.filter
                     (fun c => c.1 != hash_username username) }, true)

/-! ## Credential-check routing (`main_app.py` `check_user_api_key`) -/

/-- Where `check_user_api_key` sends the flow. -/
inductive FlowRoute where
  /-- stored key found: straight to the assistant with the key loaded -/
  | ready (key : String)
  /-- anything else: show the API setup window -/
  | credentialSetup
deriving Repr, DecidableEq

/-- `TIYAApplication.check_user_api_key`, applied to the `(key, message)`
pair of `get_user_api_key` (or to an exception around that call, which its
own `try/except` also routes to setup): `if api_key:` — Python truthiness,
so `None` and the empty string both route to setup. -/
def check_user_api_key (result : Except String (Option String × String)) :
    FlowRoute :=
  match result with
  | Except.error _ => FlowRoute.credentialSetup
  | Except.ok (some key, _) =>
      if key = "" then FlowRoute.credentialSetup else FlowRoute.ready key
  | Except.ok (none, _) => FlowRoute.credentialSetup

/-! ## API-key setup window (`api_setup.py`) -/

/-- Classification of a Gemini client error by the `except` clause of
`APIValidationThread.run`.  These are the classes the code actually has:
substring heuristics for credential, quota and permission errors plus a
catch-all — there is no network/transport class. -/
inductive GeminiErrClass where
  | auth
  | quota
  | permission
  | unrecognized
deriving Repr, DecidableEq

/-- The substring dispatch of `APIValidationThread.run`'s `except` clause,
applied to `str(e).lower()`. -/
def classify_validation_error (e : String) : GeminiErrClass :=
  let error_msg := py_lower e
  if strHasSub error_msg "api_key" || strHasSub error_msg "invalid" then
    GeminiErrClass.auth
  else if strHasSub error_msg "quota" || strHasSub error_msg "limit" then
    GeminiErrClass.quota
  else if strHasSub error_msg "permission" then GeminiErrClass.permission
  else GeminiErrClass.unrecognized

/-- The `(is_valid, message)` pair `APIValidationThread.run` emits for a
raised exception `e`. -/
def validation_error_result (e : String) : Bool × String :=
  let error_msg := py_lower e
  if strHasSub error_msg "api_key" || strHasSub error_msg "invalid" then
    (false, "Invalid API key")
  else if strHasSub error_msg "quota" || strHasSub error_msg "limit" then
    (false, "API quota exceeded")
  else if strHasSub error_msg "permission" then (false, "API permission denied")
  else (false, "Validation error: " ++ e)

/-- `APIValidationThread.run` as a whole: the `(is_valid, message)` pair
emitted through `validation_complete`.  `call` is the outcome of the
`generate_content("Hello")` probe: `Except.error e` = raised exception,
`Except.ok t` = a response whose `.text` is `t` (`none` for a falsy
response). -/
def api_validation_run (geminiAvailable : Bool) (api_key : String)
    (call : Except String (Option String)) : Bool × String :=
  if geminiAvailable && api_key != "" then
    match call with
    | Except.ok (some t) =>
        if t = "" then (false, "Invalid response from API")
        else (true, "API key validated successfully")
    | Except.ok none => (false, "Invalid response from API")
    | Except.error e => validation_error_result e
  else
    if 20 < api_key.length then
      (true, "API key format appears valid (simulation mode)")
    else (false, "API key format appears invalid")

/-- The local configuration document written by `handle_validation_result` —
exactly these four fields. -/
structure TiyaConfig where
  gemini_api_key : String
  configured : Bool
  setup_date : String
  validation_message : String
deriving Repr, DecidableEq

/-- State of `APISetupWindow` relevant to validation and persistence. -/
structure SetupState where
  apiInput : String
  validateBtnEnabled : Bool
  validateBtnText : String
  validateBtnVisible : Bool
  continueBtnVisible : Bool
  statusText : String
  /-- `APIValidationThread`s started and not yet completed -/
  pendingValidations : Nat
deriving Repr, DecidableEq

/-- `APISetupWindow.__init__` (before `load_existing_config`). -/
def setup_init : SetupState :=
  { apiInput := ""
    validateBtnEnabled := true
    validateBtnText := "🔒 Validate & Save API Key"
    validateBtnVisible := true
    continueBtnVisible := false
    statusText := ""
    pendingValidations := 0 }

/-- `APISetupWindow.validate_and_save_api`: empty input is refused with a
status message; otherwise the validate button is disabled and an
`APIValidationThread` is started — without checking whether one is already
pending.  Returns the number of threads started. -/
def validate_and_save_api (s : SetupState) : SetupState × Nat :=
  let api_key := py_strip s.apiInput
  if api_key = "" then
    ({ s with statusText := "ERROR: API key cannot be empty" }, 0)
  else
    ({ s with statusText := "⏳ Validating API key...",
              validateBtnEnabled := false,
              validateBtnText := "🔄 Validating...",
              pendingValidations := s.pendingValidations + 1 }, 1)

/-- `str(QTimer().currentTime())` in `handle_validation_result`: Qt's
`QTimer` has no `currentTime` member (the intended call is
`QTime.currentTime()`), so evaluating the attribute raises
`AttributeError`. -/
def qtimer_currentTime : Except String String :=
  Except.error "AttributeError: QTimer object has no attribute currentTime"

/-- `APISetupWindow.handle_validation_result`: re-enable the button; on
success build the config document (which evaluates `qtimer_currentTime`) and
write it, on failure show the error.  Returns the updated window state and
the config document written to `tiya_config.json`, or propagates the
exception raised while building the document.  `writeErr` models an
`open`/`json.dump` failure, which is caught. -/
def handle_validation_result (s : SetupState) (is_valid : Bool)
    (message : String) (writeErr : Option String) :
    Except String (SetupState × Option TiyaConfig) :=
  let s1 := { s with validateBtnEnabled := true,
                     validateBtnText := "🔒 Validate & Save API Key" }
  if is_valid then
    let api_key := py_strip s1.apiInput
    match qtimer_currentTime with
    | Except.error e => Except.error e
    | Except.ok ts =>
        let config : TiyaConfig :=
          { gemini_api_key := api_key, configured := true,
            setup_date := ts, validation_message := message }
        match writeErr with
        | some e =>
            Except.ok ({ s1 with statusText := "ERROR: Failed to save config - " ++ e },
                       none)
        | none =>
            Except.ok ({ s1 with statusText := "✓ " ++ py_upper message,
                                 validateBtnVisible := false,
                                 continueBtnVisible := true }, some config)
  else
    Except.ok ({ s1 with statusText := "ERROR: " ++ message }, none)

/-- `APISetupWindow.load_existing_config`: read `tiya_config.json` on window
start (`none` = file absent, `Except.error` = unreadable/unparsable, both
leave the window untouched) and pre-fill the input when `configured` and a
key are present. -/
def load_existing_config (s : SetupState)
    (file : Option (Except String TiyaConfig)) : SetupState :=
  match file with
  | none => s
  | some (Except.error _) => s
  | some (Except.ok cfg) =>
      if cfg.configured && cfg.gemini_api_key != "" then
        { s with apiInput := cfg.gemini_api_key,
                 statusText := "✓ EXISTING CONFIGURATION FOUND",
                 validateBtnText := "🔄 Update & Save API Key",
                 continueBtnVisible := true }
      else s


/-! ## Helper lemmas -/

theorem submit_and_resolve_transcript (g : Bool) (k : String) (s : AssistantState)
    (step : String × Except String String × Nat) (h : py_strip step.1 ≠ "") :
    (submit_and_resolve g k s step).transcript
      = s.transcript ++ exchange_pair g k step := by
  simp [submit_and_resolve, send_message, generate_response, deliver_response,
        exchange_pair, h]

theorem run_sequential_transcript (g : Bool) (k : String) :
    ∀ (steps : List (String × Except String String × Nat)) (s : AssistantState),
      (∀ step ∈ steps, py_strip step.1 ≠ "") →
      (run_sequential g k s steps).transcript
        = s.transcript ++ steps.flatMap (exchange_pair g k)
  | [], s, _ => by simp [run_sequential]
  | step :: rest, s, h => by
      rw [run_sequential,
          run_sequential_transcript g k rest _
            (fun x hx => h x (List.mem_cons_of_mem _ hx)),
          submit_and_resolve_transcript g k s step (h step (List.mem_cons_self _ _))]
      simp

theorem response_thread_author (g : Bool) (k : String) (c : Except String String)
    (i : Nat) : (response_thread g k c i).author = Author.assistant := by
  unfold response_thread
  split
  · cases c <;> rfl
  · rfl

theorem flatMap_exchange_length (g : Bool) (k : String) :
    ∀ steps : List (String × Except String String × Nat),
      (steps.flatMap (exchange_pair g k)).length = 2 * steps.length
  | [] => rfl
  | x :: xs => by
      simp [List.flatMap_cons, exchange_pair, flatMap_exchange_length g k xs]
      ring

theorem lookup_upsert_self : ∀ (docs : List (String × UserDoc)) (docId key : String),
    ∃ d, lookupDoc (upsertApiKey docs docId key) docId = some d
      ∧ d.api_key = some key
  | [], docId, key => by simp [upsertApiKey, lookupDoc]
  | p :: rest, docId, key => by
      by_cases h : p.1 = docId
      · refine ⟨{ p.2 with api_key := some key }, ?_, rfl⟩
        simp [upsertApiKey, lookupDoc, h]
      · obtain ⟨d, hd, hk⟩ := lookup_upsert_self rest docId key
        refine ⟨d, ?_, hk⟩
        simpa [upsertApiKey, lookupDoc, h] using hd

theorem lookup_upsert_other :
    ∀ (docs : List (String × UserDoc)) (docId key other : String),
    other ≠ docId →
    lookupDoc (upsertApiKey docs docId key) other = lookupDoc docs other
  | [], docId, key, other, h => by
      have hdo : ¬ docId = other := fun e => h e.symm
      simp [upsertApiKey, lookupDoc, hdo]
  | p :: rest, docId, key, other, h => by
      by_cases hp : p.1 = docId
      · have hdo : ¬ docId = other := fun e => h e.symm
        simp [upsertApiKey, lookupDoc, hp, hdo]
      · by_cases ho : p.1 = other
        · simp [upsertApiKey, lookupDoc, hp, ho, h]
        · simpa [upsertApiKey, lookupDoc, hp, ho, h] using
            lookup_upsert_other rest docId key other h

/-! ## Claim theorems -/

/-- Claim C1: for every sequence of completion requests submitted only after
the previous one resolved, each non-empty submitted message (and each
recognized voice utterance) starts exactly one completion worker, and the
exchanges append exactly `2 N` bubbles to the transcript, alternating a user
bubble (the stripped input) and then the assistant bubble, in submission
order.  The transcript is measured relative to its content when the sequence
starts (the window greeting bubble from `create_right_panel` precedes any
submission). -/
theorem c1_sequential_exchange (geminiAvailable : Bool) (apiKey : String)
    (s : AssistantState) (steps : List (String × Except String String × Nat))
    (hne : ∀ step ∈ steps, py_strip step.1 ≠ "") :
    (run_sequential geminiAvailable apiKey s steps).transcript
      = s.transcript ++ steps.flatMap (exchange_pair geminiAvailable apiKey)
    ∧ (run_sequential geminiAvailable apiKey s steps).transcript.length
      = s.transcript.length + 2 * steps.length
    ∧ (∀ input, py_strip input ≠ "" → (send_message s input).2 = 1)
    ∧ (∀ text, (process_voice_input s text).2 = 1)
    ∧ (∀ step, (exchange_pair geminiAvailable apiKey step).map Message.author
        = [Author.user, Author.assistant]) := by
  refine ⟨run_sequential_transcript geminiAvailable apiKey steps s hne, ?_, ?_, ?_, ?_⟩
  · rw [run_sequential_transcript geminiAvailable apiKey steps s hne]
    rw [List.length_append, flatMap_exchange_length]
  · intro input hi
    simp [send_message, hi]
  · intro text
    simp [process_voice_input]
  · intro step
    simp [exchange_pair, response_thread_author]

/-- Claim C1 witness: one concrete submit/resolve cycle. -/
theorem c1_sequential_exchange_witness :
    (∀ step ∈ ([("hi there", Except.ok "Affirmative.", 0)] :
        List (String × Except String String × Nat)), py_strip step.1 ≠ "")
    ∧ ((run_sequential true "AIzaKey" (assistant_init true)
          [("hi there", Except.ok "Affirmative.", 0)]).transcript
        = (assistant_init true).transcript
          ++ ([("hi there", Except.ok "Affirmative.", 0)] :
              List (String × Except String String × Nat)).flatMap
                (exchange_pair true "AIzaKey")
      ∧ (run_sequential true "AIzaKey" (assistant_init true)
          [("hi there", Except.ok "Affirmative.", 0)]).transcript.length
        = (assistant_init true).transcript.length + 2 * 1
      ∧ (∀ input, py_strip input ≠ ""
          → (send_message (assistant_init true) input).2 = 1)
      ∧ (∀ text, (process_voice_input (assistant_init true) text).2 = 1)
      ∧ (∀ step, (exchange_pair true "AIzaKey" step).map Message.author
          = [Author.user, Author.assistant])) :=
  ⟨by decide,
   c1_sequential_exchange true "AIzaKey" (assistant_init true)
     [("hi there", Except.ok "Affirmative.", 0)] (by decide)⟩

/-- Claim C2 counterexample: submitting a second completion request while one
is pending is not rejected with `Busy` — `generate_response` starts a second
worker and both are pending concurrently. -/
theorem c2_second_submission_not_rejected :
    (generate_response (generate_response (assistant_init true) "hello").1 "again").2
      = SubmitOutcome.started
    ∧ (generate_response (generate_response (assistant_init true) "hello").1
        "again").1.pendingResponses = 2 :=
  ⟨rfl, rfl⟩

/-- Claim C2 amended: `generate_response` performs no pending check — every
submission starts a worker (never `Busy`) and increments the number of
in-flight completion workers.  For validation Tasks, `validate_and_save_api`
likewise performs no pending check, but it disables the validate button while
a validation thread runs, which blocks a second submission through the UI. -/
theorem c2_submissions_always_start :
    (∀ (s : AssistantState) (m : String),
      (generate_response s m).2 = SubmitOutcome.started
      ∧ (generate_response s m).1.pendingResponses = s.pendingResponses + 1)
    ∧ (∀ t : SetupState, py_strip t.apiInput ≠ "" →
      (validate_and_save_api t).2 = 1
      ∧ (validate_and_save_api t).1.validateBtnEnabled = false
      ∧ (validate_and_save_api t).1.pendingValidations = t.pendingValidations + 1) := by
  refine ⟨fun s m => ⟨rfl, rfl⟩, fun t ht => ?_⟩
  simp [validate_and_save_api, ht]

/-- Claim C2 witness: a concrete non-empty key submission. -/
theorem c2_submissions_always_start_witness :
    py_strip "AIzaKey" ≠ ""
    ∧ ((validate_and_save_api { setup_init with apiInput := "AIzaKey" }).2 = 1
      ∧ (validate_and_save_api
          { setup_init with apiInput := "AIzaKey" }).1.validateBtnEnabled = false
      ∧ (validate_and_save_api
          { setup_init with apiInput := "AIzaKey" }).1.pendingValidations
        = ({ setup_init with apiInput := "AIzaKey" } : SetupState).pendingValidations
          + 1) :=
  ⟨by decide,
   c2_submissions_always_start.2 { setup_init with apiInput := "AIzaKey" } (by decide)⟩

/-- Claim C3: every failure of the external completion call is caught inside
`response_thread` and becomes a single assistant-authored `System error:`
bubble appended to the transcript; delivery leaves the window alive (the
model is a total function — no failure escapes the worker). -/
theorem c3_failure_becomes_assistant_message (apiKey e : String) (mockIdx : Nat)
    (s : AssistantState) (hkey : apiKey ≠ "") :
    (response_thread true apiKey (Except.error e) mockIdx).author = Author.assistant
    ∧ (response_thread true apiKey (Except.error e) mockIdx).text
      = "System error: " ++ e ++ "\n\n// T-I-Y-A Quantum Core"
    ∧ (deliver_response s (response_thread true apiKey (Except.error e) mockIdx)).transcript
      = s.transcript ++ [response_thread true apiKey (Except.error e) mockIdx]
    ∧ (deliver_response s (response_thread true apiKey (Except.error e)
        mockIdx)).windowClosed = s.windowClosed := by
  simp [response_thread, deliver_response, hkey]

/-- Claim C3 witness: a concrete raised exception. -/
theorem c3_failure_becomes_assistant_message_witness :
    ("AIzaKey" : String) ≠ ""
    ∧ ((response_thread true "AIzaKey" (Except.error "boom") 0).author = Author.assistant
      ∧ (response_thread true "AIzaKey" (Except.error "boom") 0).text
        = "System error: " ++ "boom" ++ "\n\n// T-I-Y-A Quantum Core"
      ∧ (deliver_response (assistant_init true)
          (response_thread true "AIzaKey" (Except.error "boom") 0)).transcript
        = (assistant_init true).transcript
          ++ [response_thread true "AIzaKey" (Except.error "boom") 0]
      ∧ (deliver_response (assistant_init true)
          (response_thread true "AIzaKey" (Except.error "boom") 0)).windowClosed
        = (assistant_init true).windowClosed) :=
  ⟨by decide,
   c3_failure_becomes_assistant_message "AIzaKey" "boom" 0 (assistant_init true)
     (by decide)⟩
/-- Claim C5 counterexample: after `closeEvent`, the delivery of an in-flight
worker is not a no-op — `add_tiya_message` still appends to the closed
window's transcript (the code has no discard mechanism). -/
theorem c5_delivery_after_close_not_discarded :
    (deliver_response (assistant_closeEvent (assistant_init true))
        ⟨Author.assistant, "late"⟩).transcript
      ≠ (assistant_closeEvent (assistant_init true)).transcript := by
  decide

/-- Claim C5 amended: closing the window stops the continuous wake-word loop
(`stop` clears `running`, after which the listen loop performs no further
iterations) and releases the webcam; but an in-flight Task's delivery is not
discarded: the delivery callback runs against the closed window and still
appends its one message. -/
theorem c5_close_stops_listener_only :
    (∀ s : AssistantState,
      (assistant_closeEvent s).wakeRunning = false
      ∧ (assistant_closeEvent s).webcamOpen = false
      ∧ (assistant_closeEvent s).windowClosed = true)
    ∧ (∀ us : List (Except String String), wake_loop false us = [])
    ∧ (∀ (s : AssistantState) (m : Message),
      (deliver_response (assistant_closeEvent s) m).transcript
        = (assistant_closeEvent s).transcript ++ [m]) := by
  refine ⟨fun s => ⟨rfl, rfl, rfl⟩, fun us => ?_, fun s m => rfl⟩
  cases us <;> simp [wake_loop]

/-- Claim C6: login is an exact-string comparison of the submitted pair
against the plaintext allow-list: ("operator", "quantum") proceeds to the
credential check with the user recorded; "operator" with any other secret is
denied with the failure banner and leaves the session untouched. -/
theorem c6_login_exact_match (s : AppState) :
    (handle_login s "operator" "quantum").2 = LoginOutcome.proceedToCredentialCheck
    ∧ (handle_login s "operator" "quantum").1.current_user = some "operator"
    ∧ (∀ pwd, pwd ≠ "quantum" →
      (handle_login s "operator" pwd).2 = LoginOutcome.denied
      ∧ (handle_login s "operator" pwd).1.current_user = s.current_user
      ∧ (handle_login s "operator" pwd).1.api_key = s.api_key
      ∧ (handle_login s "operator" pwd).1.loginStatusText
        = "● AUTHENTICATION FAILURE. ANOMALY DETECTED.")
    ∧ (∀ u p, (handle_login s u p).2 = LoginOutcome.proceedToCredentialCheck
        ↔ lookup_valid_user u = some p) := by
  refine ⟨?_, ?_, fun pwd hp => ?_, fun u p => ?_⟩
  · simp [handle_login, lookup_valid_user, valid_users, List.find?]
  · simp [handle_login, lookup_valid_user, valid_users, List.find?]
  · have : lookup_valid_user "operator" = some "quantum" := by decide
    simp [handle_login, this, hp]
  · cases h : lookup_valid_user u with
    | none => simp [handle_login, h]
    | some pw =>
        by_cases hp : p = pw
        · simp [handle_login, h, hp]
        · simp [handle_login, h, hp, Ne.symm hp]

/-- Claim C6 witness: a concrete wrong password. -/
theorem c6_login_exact_match_witness :
    ("wrong" : String) ≠ "quantum"
    ∧ ((handle_login app_init "operator" "wrong").2 = LoginOutcome.denied
      ∧ (handle_login app_init "operator" "wrong").1.current_user
        = app_init.current_user
      ∧ (handle_login app_init "operator" "wrong").1.api_key = app_init.api_key
      ∧ (handle_login app_init "operator" "wrong").1.loginStatusText
        = "● AUTHENTICATION FAILURE. ANOMALY DETECTED.") :=
  ⟨by decide, (c6_login_exact_match app_init).2.2.1 "wrong" (by decide)⟩

/-- Claim C7: `check_user_api_key` always routes to either `Ready` or the
credential setup window (never a crash or stuck state); every lookup outcome
other than a non-empty stored key — client not initialized, round-trip
failure, document missing, key field absent — routes to setup, and a stored
non-empty key routes to `Ready` with that key. -/
theorem c7_credential_check_routing :
    (∀ r : Except String (Option String × String),
      check_user_api_key r = FlowRoute.credentialSetup
      ∨ ∃ k, k ≠ "" ∧ check_user_api_key r = FlowRoute.ready k)
    ∧ (∀ e : String, check_user_api_key (Except.error e) = FlowRoute.credentialSetup)
    ∧ (∀ (st : FirebaseSt) (u e : String),
      check_user_api_key (Except.ok (get_user_api_key st (some e) u))
        = FlowRoute.credentialSetup)
    ∧ (∀ (st : FirebaseSt) (u : String), st.connected = false →
      check_user_api_key (Except.ok (get_user_api_key st none u))
        = FlowRoute.credentialSetup)
    ∧ (∀ (st : FirebaseSt) (u : String), st.connected = true →
      lookupDoc st.docs (hash_username u) = none →
      check_user_api_key (Except.ok (get_user_api_key st none u))
        = FlowRoute.credentialSetup)
    ∧ (∀ (st : FirebaseSt) (u k : String) (d : UserDoc), st.connected = true →
      lookupDoc st.docs (hash_username u) = some d → d.api_key = some k → k ≠ "" →
      check_user_api_key (Except.ok (get_user_api_key st none u))
        = FlowRoute.ready k) := by
  refine ⟨?_, ?_, ?_, ?_, ?_, ?_⟩
  · intro r
    match r with
    | Except.error e => exact Or.inl rfl
    | Except.ok (none, m) => exact Or.inl rfl
    | Except.ok (some k, m) =>
        by_cases hk : k = ""
        · exact Or.inl (by simp [check_user_api_key, hk])
        · exact Or.inr ⟨k, hk, by simp [check_user_api_key, hk]⟩
  · intro e; rfl
  · intro st u e
    cases hc : st.connected <;> simp [get_user_api_key, check_user_api_key, hc]
  · intro st u hc
    simp [get_user_api_key, check_user_api_key, hc]
  · intro st u hc hd
    simp [get_user_api_key, check_user_api_key, hc, hd]
  · intro st u k d hc hd hk hne
    simp [get_user_api_key, check_user_api_key, hc, hd, hk, hne]

/-- Claim C7 witness: a stored non-empty key routes to `Ready`. -/
theorem c7_credential_check_routing_witness :
    (⟨true, [(hash_username "operator", ⟨some "AIzaKey", none⟩)], []⟩
        : FirebaseSt).connected = true
    ∧ lookupDoc (⟨true, [(hash_username "operator", ⟨some "AIzaKey", none⟩)], []⟩
        : FirebaseSt).docs (hash_username "operator")
      = some ⟨some "AIzaKey", none⟩
    ∧ (⟨some "AIzaKey", none⟩ : UserDoc).api_key = some "AIzaKey"
    ∧ ("AIzaKey" : String) ≠ ""
    ∧ check_user_api_key (Except.ok (get_user_api_key
        ⟨true, [(hash_username "operator", ⟨some "AIzaKey", none⟩)], []⟩
        none "operator"))
      = FlowRoute.ready "AIzaKey" :=
  ⟨rfl, by simp [lookupDoc], rfl, by decide,
   c7_credential_check_routing.2.2.2.2.2 _ "operator" "AIzaKey"
     ⟨some "AIzaKey", none⟩ rfl (by simp [lookupDoc]) rfl (by decide)⟩

/-- Claim C8: storing a key for a username and reloading it for the same
username yields the identical key string (for a connected store and
successful round trips, the only case in which the code reports success). -/
theorem c8_store_get_roundtrip (st : FirebaseSt) (u k : String)
    (h : st.connected = true) :
    get_user_api_key (store_user_api_key st none u k).1 none u
      = (some k, "API key retrieved successfully") := by
  obtain ⟨d, hd, hk⟩ := lookup_upsert_self st.docs (hash_username u) k
  simp [store_user_api_key, get_user_api_key, h, hd, hk]

/-- Claim C8 witness: a concrete store-then-load round trip. -/
theorem c8_store_get_roundtrip_witness :
    (⟨true, [], []⟩ : FirebaseSt).connected = true
    ∧ get_user_api_key
        (store_user_api_key ⟨true, [], []⟩ none "operator" "AIzaKey").1 none "operator"
      = (some "AIzaKey", "API key retrieved successfully") :=
  ⟨rfl, c8_store_get_roundtrip ⟨true, [], []⟩ "operator" "AIzaKey" rfl⟩
/-- Claim C9 counterexample: the hash applied to the identity is not salted —
`hash_username` is exactly unsalted SHA-256 of the lowercased identity, so
identities differing only in letter case already collide to the same record
key. -/
theorem c9_hash_unsalted :
    hash_username "Operator" = sha256_hexdigest "operator"
    ∧ hash_username "OPERATOR" = hash_username "operator" := by
  constructor
  · have h : py_lower "Operator" = "operator" := by decide
    simp only [hash_username, h]
  · have h : py_lower "OPERATOR" = py_lower "operator" := by decide
    simp only [hash_username, h]

/-- Claim C9 amended: every document-store operation keys its record by
`hash_username` — the unsalted SHA-256 hex digest of the lowercased
identity, never the plain identity string; two calls with the same identity
(even case variants) therefore address the same record, and a store touches
no record other than the one at that hash. -/
theorem c9_hash_is_record_key :
    (∀ u : String, hash_username u = sha256_hexdigest (py_lower u))
    ∧ (∀ u v : String, py_lower u = py_lower v →
        hash_username u = hash_username v)
    ∧ (∀ (st : FirebaseSt) (u v k chatId : String)
        (prefs : List (String × String)) (msgs : List String),
        py_lower u = py_lower v →
        get_user_api_key st none u = get_user_api_key st none v
        ∧ store_user_api_key st none u k = store_user_api_key st none v k
        ∧ get_user_preferences st none u = get_user_preferences st none v
        ∧ store_user_preferences st none u prefs = store_user_preferences st none v prefs
        ∧ store_chat_history st none u chatId msgs
          = store_chat_history st none v chatId msgs
        ∧ delete_user_data st none u = delete_user_data st none v)
    ∧ (∀ (st : FirebaseSt) (u k : String), st.connected = true →
        (∃ d, lookupDoc ((store_user_api_key st none u k).1).docs (hash_username u)
            = some d ∧ d.api_key = some k)
        ∧ (∀ docId, docId ≠ hash_username u →
            lookupDoc ((store_user_api_key st none u k).1).docs docId
              = lookupDoc st.docs docId)) := by
  have hcong : ∀ u v : String, py_lower u = py_lower v →
      hash_username u = hash_username v := by
    intro u v h
    simp only [hash_username, h]
  refine ⟨fun u => rfl, hcong, ?_, ?_⟩
  · intro st u v k chatId prefs msgs h
    refine ⟨?_, ?_, ?_, ?_, ?_, ?_⟩ <;>
      simp only [get_user_api_key, store_user_api_key, get_user_preferences,
        store_user_preferences, store_chat_history, delete_user_data, hcong u v h]
  · intro st u k hc
    constructor
    · obtain ⟨d, hd, hk⟩ := lookup_upsert_self st.docs (hash_username u) k
      exact ⟨d, by simp [store_user_api_key, hc, hd], hk⟩
    · intro docId hne
      simp [store_user_api_key, hc,
        lookup_upsert_other st.docs (hash_username u) k docId hne]

/-- Claim C9 witness: case-variant identities address the same record, and a
concrete store lands at the identity's hash. -/
theorem c9_hash_is_record_key_witness :
    py_lower "Operator" = py_lower "operator"
    ∧ get_user_api_key ⟨true, [], []⟩ none "Operator"
      = get_user_api_key ⟨true, [], []⟩ none "operator"
    ∧ (⟨true, [], []⟩ : FirebaseSt).connected = true
    ∧ (∃ d, lookupDoc
        ((store_user_api_key ⟨true, [], []⟩ none "Operator" "AIzaKey").1).docs
          (hash_username "Operator") = some d ∧ d.api_key = some "AIzaKey") :=
  ⟨by decide,
   (c9_hash_is_record_key.2.2.1 ⟨true, [], []⟩ "Operator" "operator" "" "" [] []
     (by decide)).1,
   rfl,
   (c9_hash_is_record_key.2.2.2 ⟨true, [], []⟩ "Operator" "AIzaKey" rfl).1⟩

/-- Claim C10 (code bug): on a successful validation, building the config
document evaluates `QTimer().currentTime()`, which raises `AttributeError`
(Qt's `QTimer` has no such member — `QTime.currentTime()` was meant), so the
configuration file is never written even though validation succeeded. -/
theorem c10_successful_validation_raises :
    handle_validation_result { setup_init with apiInput := "AIzaSyTestKey123456789" }
      true "API key validated successfully" none
    = Except.error "AttributeError: QTimer object has no attribute currentTime" :=
  rfl

/-- Claim C4 counterexample: an error whose text mentions "permission" is
given its own class ("API permission denied"), which is none of the four
classes the claim names and is not the catch-all; an error about a network
transport failure falls into the catch-all rather than a `NetworkError`
class. -/
theorem c4_no_network_class :
    (validation_error_result "permission denied").2 = "API permission denied"
    ∧ (validation_error_result "permission denied").2
      ≠ "Validation error: " ++ "permission denied"
    ∧ (validation_error_result "network connection failed").2
      = "Validation error: " ++ "network connection failed" := by
  decide

/-- Claim C4 amended: client errors are classified by substring matching on
the lowercased error text into `auth` ("api_key" or "invalid"), `quota`
("quota" or "limit"), `permission` ("permission") and a catch-all — there is
no network class; an error matching none of the five substrings maps to the
catch-all message, every emitted pair reports failure, and on the real-client
path the raised error reaches this classifier at the Task boundary. -/
theorem c4_substring_classification (e : String) :
    (validation_error_result e).1 = false
    ∧ (validation_error_result e).2
      = (match classify_validation_error e with
        | GeminiErrClass.auth => "Invalid API key"
        | GeminiErrClass.quota => "API quota exceeded"
        | GeminiErrClass.permission => "API permission denied"
        | GeminiErrClass.unrecognized => "Validation error: " ++ e)
    ∧ (classify_validation_error e = GeminiErrClass.auth
      ↔ (strHasSub (py_lower e) "api_key" = true
         ∨ strHasSub (py_lower e) "invalid" = true))
    ∧ (classify_validation_error e = GeminiErrClass.unrecognized
      ↔ strHasSub (py_lower e) "api_key" = false
        ∧ strHasSub (py_lower e) "invalid" = false
        ∧ strHasSub (py_lower e) "quota" = false
        ∧ strHasSub (py_lower e) "limit" = false
        ∧ strHasSub (py_lower e) "permission" = false)
    ∧ (∀ key : String, key ≠ "" →
        api_validation_run true key (Except.error e) = validation_error_result e) := by
  have hb : ∀ key : String, key ≠ "" →
      api_validation_run true key (Except.error e) = validation_error_result e := by
    intro key hk
    simp [api_validation_run, hk]
  refine ⟨?_, ?_, ?_, ?_, hb⟩ <;>
  (by_cases h1 : strHasSub (py_lower e) "api_key" = true <;>
   by_cases h2 : strHasSub (py_lower e) "invalid" = true <;>
   by_cases h3 : strHasSub (py_lower e) "quota" = true <;>
   by_cases h4 : strHasSub (py_lower e) "limit" = true <;>
   by_cases h5 : strHasSub (py_lower e) "permission" = true <;>
     simp_all [validation_error_result, classify_validation_error,
       Bool.not_eq_true])

/-- Claim C4 witness: a concrete unmatched error at the Task boundary. -/
theorem c4_substring_classification_witness :
    ("AIzaKey" : String) ≠ ""
    ∧ api_validation_run true "AIzaKey" (Except.error "weird failure")
      = validation_error_result "weird failure" :=
  ⟨by decide,
   (c4_substring_classification "weird failure").2.2.2.2 "AIzaKey" (by decide)⟩

end Tiya
